import Mathlib

/-!
Verification of the PickScout scraper (`backend/scraper.py`).

Texts are modelled as `List Char`.  The Python regular expressions
(`RECORD_PATTERN`, `ODDS_PATTERN`, `UNITS_PATTERN`, the `total_units`
pattern) are hand-compiled to deterministic matchers below.  Each regex
has the property that at every backtracking point the character classes
involved are disjoint (digits vs. whitespace vs. separators vs. letters),
so Python's leftmost, ordered-alternation, greedy semantics collapse to
the deterministic functions written here; the derivation is recorded in
comments next to each matcher.  `\s` and `\d` and case folding are
modelled at their ASCII meaning.
-/

namespace PickScout

/-- The characters of a string literal. -/
def chars (s : String) : List Char := s.data

/-- ASCII lower-casing of a text, modelling Python `str.lower` on the
ASCII range (all pattern letters are ASCII). -/
def lowerL (cs : List Char) : List Char := cs.map Char.toLower

/-- Python `\s` at its ASCII meaning: space, tab, newline, carriage
return, vertical tab, form feed. -/
def isSpaceC (c : Char) : Bool :=
  c = ' ' || c = '\t' || c = '\n' || c = '\r' || c = Char.ofNat 11 || c = Char.ofNat 12

/-- Python `\w` at its ASCII meaning (used for the `\b` assertion). -/
def isWordC (c : Char) : Bool := c.isAlphanum || c = '_'

/-- Separator class `[-–/]` used by the record pattern (hyphen, en dash,
slash). -/
def isSep3 (c : Char) : Bool := c = '-' || c = '–' || c = '/'

/-- Separator class `[-–]` (hyphen, en dash). -/
def isSep2 (c : Char) : Bool := c = '-' || c = '–'

/-- Length of the leading run of ASCII digits. -/
def digitRun : List Char → Nat
  | [] => 0
  | c :: cs => if c.isDigit then digitRun cs + 1 else 0

/-- Numeric value of the first `n` characters (assumed digits), as
Python `int` of the digit substring. -/
def digitsVal (cs : List Char) (n : Nat) : Nat :=
  ((cs.take n).foldl (fun a c => a * 10 + (c.toNat - 48)) 0)

/-- Consume `\s*`. -/
def skipSpaces : List Char → List Char
  | [] => []
  | c :: cs => if isSpaceC c then skipSpaces cs else c :: cs

/-- Consume `\s+` (at least one whitespace character). -/
def spaces1 (cs : List Char) : Option (List Char) :=
  match cs with
  | [] => none
  | c :: cs' => if isSpaceC c then some (skipSpaces cs') else none

/-- Match a literal word case-insensitively (pattern given in lower
case), returning the rest of the input.  Models `re.IGNORECASE` literal
matching on the ASCII range. -/
def matchLitCI : List Char → List Char → Option (List Char)
  | [], cs => some cs
  | _ :: _, [] => none
  | p :: ps, c :: cs => if c.toLower = p then matchLitCI ps cs else none

/-- `\d{1,max}` in a context whose follower cannot start with a digit:
the greedy match with backtracking succeeds exactly when the leading
digit run has length `1..max`, and consumes the whole run. -/
def matchD (max : Nat) (cs : List Char) : Option (Nat × List Char) :=
  let r := digitRun cs
  if r = 0 || max < r then none else some (digitsVal cs r, cs.drop r)

/-- `\d{1,max}` at the very end of the pattern: greedy, so it takes
`min run max` digits and only requires the run to be non-empty. -/
def matchDEnd (max : Nat) (cs : List Char) : Option (Nat × List Char) :=
  let r := digitRun cs
  if r = 0 then none else some (digitsVal cs (min r max), cs.drop (min r max))

/-- Head test. -/
def headIs (c : Char) (cs : List Char) : Bool :=
  match cs with
  | c' :: _ => c' = c
  | [] => false

/-- Case-insensitive head test. -/
def headIsCI (c : Char) (cs : List Char) : Bool :=
  match cs with
  | c' :: _ => c'.toLower = c
  | [] => false

/-!  `RECORD_PATTERN` (scraper.py lines 55-80), one function per
alternative, in the alternation's order.  Each alternative returns the
pair of captured numbers `(wins, losses)`. -/

/-- Optional push group then closing bracket:
`(?:\s*[-–/]\s*\d{1,3})? close`.  The push group is tried first
(greedy); if the close fails after it, backtracking retries the close at
the original position. -/
def pushThenClose (close : Char) (cs : List Char) : Bool :=
  let push : Option (List Char) :=
    match skipSpaces cs with
    | c :: cs2 => if isSep3 c then (matchD 3 (skipSpaces cs2)).map (fun p => p.2) else none
    | [] => none
  match push with
  | some cs3 => headIs close cs3 || headIs close cs
  | none => headIs close cs

/-- Alternatives 1 and 2:
`\((\d{1,4})\s*[-–/]\s*(\d{1,4})(?:\s*[-–/]\s*\d{1,3})?\)` and the
`[...]` variant. -/
def altBracket (opc clc : Char) (cs : List Char) : Option (Nat × Nat) :=
  match cs with
  | c :: cs1 =>
    if c = opc then
      (matchD 4 cs1).bind fun wp =>
        match skipSpaces wp.2 with
        | s :: cs3 =>
          if isSep3 s then
            (matchD 4 (skipSpaces cs3)).bind fun lp =>
              if pushThenClose clc lp.2 then some (wp.1, lp.1) else none
          else none
        | [] => none
    else none
  | [] => none

/-- Alternative 3: `(\d{1,4})\s*W\s*[-–/]\s*(\d{1,4})\s*L`
(case-insensitive). -/
def altWL (cs : List Char) : Option (Nat × Nat) :=
  (matchD 4 cs).bind fun wp =>
    match skipSpaces wp.2 with
    | w :: cs2 =>
      if w.toLower = 'w' then
        match skipSpaces cs2 with
        | s :: cs3 =>
          if isSep3 s then
            (matchD 4 (skipSpaces cs3)).bind fun lp =>
              if headIsCI 'l' (skipSpaces lp.2) then some (wp.1, lp.1) else none
          else none
        | [] => none
      else none
    | [] => none

/-- The rests of the input after each way of matching alternative 4's
optional verb group
`(?:went|going|sitting|currently|finished|record\s+is|i(?:'m|\sam)\s+)?`,
in backtracking order (the empty match last). -/
def verbRests (cs : List Char) : List (List Char) :=
  let apos : Char := Char.ofNat 39
  let im : Option (List Char) :=
    match cs with
    | i :: a :: m :: cs3 =>
      if i.toLower = 'i' && a = apos && m.toLower = 'm' then spaces1 cs3 else none
    | _ => none
  let iam : Option (List Char) :=
    match cs with
    | i :: s :: a :: m :: cs4 =>
      if i.toLower = 'i' && isSpaceC s && a.toLower = 'a' && m.toLower = 'm' then
        spaces1 cs4
      else none
    | _ => none
  let recIs : Option (List Char) :=
    ((matchLitCI (chars "record") cs).bind spaces1).bind (matchLitCI (chars "is"))
  (([matchLitCI (chars "went") cs,
     matchLitCI (chars "going") cs,
     matchLitCI (chars "sitting") cs,
     matchLitCI (chars "currently") cs,
     matchLitCI (chars "finished") cs,
     recIs, im, iam]).filterMap id) ++ [cs]

/-- The rests after each way of matching alternative 4's mandatory noun
group `(?:record|rec|season|ytd|overall|this\s+(?:week|month|season))`,
in backtracking order. -/
def nounRests (cs : List Char) : List (List Char) :=
  let thisR : Option (List Char) := (matchLitCI (chars "this") cs).bind spaces1
  ([matchLitCI (chars "record") cs,
    matchLitCI (chars "rec") cs,
    matchLitCI (chars "season") cs,
    matchLitCI (chars "ytd") cs,
    matchLitCI (chars "overall") cs,
    thisR.bind (matchLitCI (chars "week")),
    thisR.bind (matchLitCI (chars "month")),
    thisR.bind (matchLitCI (chars "season"))]).filterMap id

/-- Alternative 4's tail `\s*:?\s*(\d{1,4})\s*[-–]\s*(\d{1,4})` (the
second digit group ends the alternative). -/
def alt4Tail (cs : List Char) : Option (Nat × Nat) :=
  let cs1 := skipSpaces cs
  let cs2 := match cs1 with
    | ':' :: r => skipSpaces r
    | _ => cs1
  (matchD 4 cs2).bind fun wp =>
    match skipSpaces wp.2 with
    | s :: cs4 =>
      if isSep2 s then (matchDEnd 4 (skipSpaces cs4)).map (fun lp => (wp.1, lp.1))
      else none
    | [] => none

/-- Alternative 4: optional verb, mandatory record noun, then `W-L`. -/
def alt4 (cs : List Char) : Option (Nat × Nat) :=
  ((verbRests cs).map (fun r => ((nounRests r).map alt4Tail).findSome? id)).findSome? id

/-- Alternative 5:
`\b(\d{1,4})\s+and\s+(\d{1,4})\s+(?:on\s+the\s+)?(?:season|week|month|year|picks?)`.
The `\b` is checked by the caller (the scan knows the previous
character). -/
def alt5 (cs : List Char) : Option (Nat × Nat) :=
  (matchD 4 cs).bind fun wp =>
  (spaces1 wp.2).bind fun cs2 =>
  (matchLitCI (chars "and") cs2).bind fun cs3 =>
  (spaces1 cs3).bind fun cs4 =>
  (matchD 4 cs4).bind fun lp =>
  (spaces1 lp.2).bind fun cs6 =>
    let nounAt : List Char → Bool := fun r =>
      (([matchLitCI (chars "season") r, matchLitCI (chars "week") r,
         matchLitCI (chars "month") r, matchLitCI (chars "year") r,
         matchLitCI (chars "pick") r]).findSome? id).isSome
    let onThe : Option (List Char) :=
      (((matchLitCI (chars "on") cs6).bind spaces1).bind
        (matchLitCI (chars "the"))).bind spaces1
    match onThe with
    | some cs7 => if nounAt cs7 || nounAt cs6 then some (wp.1, lp.1) else none
    | none => if nounAt cs6 then some (wp.1, lp.1) else none

/-- Alternative 6:
`(?:went|going|finished|sitting|currently\s+at)\s+(\d{1,4})\s*[-–]\s*(\d{1,4})`. -/
def alt6 (cs : List Char) : Option (Nat × Nat) :=
  let currAt : Option (List Char) :=
    ((matchLitCI (chars "currently") cs).bind spaces1).bind (matchLitCI (chars "at"))
  let vrs : List (List Char) :=
    ([matchLitCI (chars "went") cs, matchLitCI (chars "going") cs,
      matchLitCI (chars "finished") cs, matchLitCI (chars "sitting") cs,
      currAt]).filterMap id
  (vrs.map (fun r =>
    (spaces1 r).bind fun cs1 =>
    (matchD 4 cs1).bind fun wp =>
      match skipSpaces wp.2 with
      | s :: cs3 =>
        if isSep2 s then (matchDEnd 4 (skipSpaces cs3)).map (fun lp => (wp.1, lp.1))
        else none
      | [] => none)).findSome? id

/-- Whether a word boundary `\b` holds before a digit, given the
previous character (`none` at the start of the text). -/
def boundaryB : Option Char → Bool
  | none => true
  | some c => !(isWordC c)

/-- Try the six alternatives of `RECORD_PATTERN`, in the alternation's
order, at one position. -/
def tryRecordAt (prev : Option Char) (cs : List Char) : Option (Nat × Nat) :=
  altBracket '(' ')' cs <|> altBracket '[' ']' cs <|> altWL cs <|> alt4 cs <|>
    (if boundaryB prev then alt5 cs else none) <|> alt6 cs

/-- Leftmost search of `RECORD_PATTERN`:  scan positions left to right,
first matching position wins, and at a position the first matching
alternative wins. -/
def recordSearch : Option Char → List Char → Option (Nat × Nat)
  | _, [] => none
  | prev, c :: rest =>
    match tryRecordAt prev (c :: rest) with
    | some r => some r
    | none => recordSearch (some c) rest

/-- `extract_record` (scraper.py lines 114-125).  The matched
alternative always has exactly two captured digit groups, so the
"fewer than two groups" and `ValueError` branches of the Python code
are unreachable; the result is the pair of captured numbers. -/
def extract_record (text : List Char) : Option (Nat × Nat) :=
  recordSearch none text

/-!  `ODDS_PATTERN = ([+-]\d{2,4})` (scraper.py line 85).  The captured
group includes the sign, and Python `int` of it is the signed value.
The digit group ends the pattern, so it greedily takes `min run 4`
digits and needs a run of at least 2. -/

/-- Try `([+-]\d{2,4})` at one position. -/
def oddsAt (cs : List Char) : Option Int :=
  match cs with
  | c :: cs1 =>
    if c = '+' || c = '-' then
      let r := digitRun cs1
      if 2 ≤ r then
        let v : Int := Int.ofNat (digitsVal cs1 (min r 4))
        some (if c = '-' then -v else v)
      else none
    else none
  | [] => none

/-- Leftmost search of `ODDS_PATTERN`, returning the signed value of
the captured group. -/
def oddsSearch : List Char → Option Int
  | [] => none
  | c :: rest =>
    match oddsAt (c :: rest) with
    | some v => some v
    | none => oddsSearch rest

/-!  Decimal numerals.  Python converts the captured numeral with
`float`; every numeral and arithmetic step relevant to the claims is
exact, so the value is modelled as an exact rational.  A captured
numeral is kept as discrete data first and converted afterwards. -/

/-- A captured decimal numeral: sign, integer part, fractional part and
its digit count. -/
structure DecNum where
  sign : Int
  ip : Nat
  fp : Nat
  fplen : Nat
deriving DecidableEq

/-- The rational value of a captured numeral. -/
def DecNum.toRat (d : DecNum) : ℚ :=
  (d.sign : ℚ) * ((d.ip : ℚ) + (d.fp : ℚ) / (10 : ℚ) ^ d.fplen)

/-- The `\s*u(?:nits?)?` tail shared by both units patterns: optional
whitespace then `u` (case-insensitive); the optional `nits?` suffix is
outside the captured group and never affects success. -/
def unitsTail (cs : List Char) : Bool := headIsCI 'u' (skipSpaces cs)

/-- Try `UNITS_PATTERN = ([+-]?(?:\d+\.)?\d+)\s*u(?:nits?)?`
(scraper.py lines 82-84) at one position.  If the digit run is followed
by a dot, the `(?:\d+\.)?` branch with a non-empty fraction is the only
way the position can match; otherwise the numeral is the bare run. -/
def unitsAt (cs : List Char) : Option DecNum :=
  let sr : Int × List Char :=
    match cs with
    | '+' :: r => (1, r)
    | '-' :: r => (-1, r)
    | _ => (1, cs)
  let r1 := digitRun sr.2
  if r1 = 0 then none
  else
    match sr.2.drop r1 with
    | '.' :: csB =>
      let r2 := digitRun csB
      if r2 ≠ 0 && unitsTail (csB.drop r2) then
        some ⟨sr.1, digitsVal sr.2 r1, digitsVal csB r2, r2⟩
      else none
    | csA => if unitsTail csA then some ⟨sr.1, digitsVal sr.2 r1, 0, 0⟩ else none

/-- Leftmost search of `UNITS_PATTERN`. -/
def unitsSearch : List Char → Option DecNum
  | [] => none
  | c :: rest =>
    match unitsAt (c :: rest) with
    | some d => some d
    | none => unitsSearch rest

/-- Try the cumulative-units pattern `([+-]\d+\.?\d*)\s*u(?:nits?)?`
(scraper.py line 219) at one position: the sign is mandatory and the
fraction may be empty. -/
def totalUnitsAt (cs : List Char) : Option DecNum :=
  match cs with
  | c :: cs0 =>
    if c = '+' || c = '-' then
      let sg : Int := if c = '-' then -1 else 1
      let r1 := digitRun cs0
      if r1 = 0 then none
      else
        match cs0.drop r1 with
        | '.' :: csB =>
          let r2 := digitRun csB
          if unitsTail (csB.drop r2) then
            some ⟨sg, digitsVal cs0 r1, digitsVal csB r2, r2⟩
          else none
        | csA => if unitsTail csA then some ⟨sg, digitsVal cs0 r1, 0, 0⟩ else none
    else none
  | [] => none

/-- Leftmost search of the cumulative-units pattern. -/
def totalUnitsSearch : List Char → Option DecNum
  | [] => none
  | c :: rest =>
    match totalUnitsAt (c :: rest) with
    | some d => some d
    | none => totalUnitsSearch rest

/-!  Keyword tables (scraper.py lines 87-99). -/

/-- Substring containment, modelling Python `in` on strings. -/
def containsSub (hay nee : List Char) : Bool :=
  match hay with
  | [] => nee.isEmpty
  | c :: t => nee.isPrefixOf (c :: t) || containsSub t nee

/-- `SPORT_KEYWORDS` (scraper.py lines 89-99), in the dict's insertion
order. -/
def SPORT_KEYWORDS : List (String × List String) :=
  [("Basketball", ["nba", "basketball", "lakers", "celtics", "bulls", "warriors", "bucks", "nets"]),
   ("Football", ["nfl", "football", "chiefs", "patriots", "cowboys", "eagles", "49ers"]),
   ("Hockey", ["nhl", "hockey", "leafs", "bruins", "rangers", "puck", "oilers"]),
   ("Baseball", ["mlb", "baseball", "yankees", "dodgers", "mets", "astros"]),
   ("Soccer", ["mls", "soccer", "premier", "la liga", "champions league", "bundesliga", "serie a"]),
   ("Esports", ["esports", "cs2", "lol", "valorant", "dota", "overwatch", "csgo"]),
   ("Olympics", ["olympics", "olympic", "curling", "biathlon", "skating", "alpine"]),
   ("Tennis", ["tennis", "atp", "wta", "wimbledon", "us open", "french open"]),
   ("MMA/UFC", ["ufc", "mma", "bellator", "fighter", "knockout", "submission"])]

/-- The apostrophe character (two hype phrases contain it). -/
def apostrophe : Char := Char.ofNat 39

/-- `HYPE_WORDS` (scraper.py line 87). -/
def HYPE_WORDS : List (List Char) :=
  [chars "lock", chars "guaranteed",
   chars "can" ++ [apostrophe] ++ chars "t miss",
   chars "whale", chars "free money", chars "99%", chars "easy money",
   chars "can" ++ [apostrophe] ++ chars "t lose"]

/-- `detect_sport` (scraper.py lines 106-111): first table entry one of
whose keywords occurs in the lower-cased text, else `"Other"`. -/
def detect_sport (text : List Char) : String :=
  let tl := lowerL text
  match SPORT_KEYWORDS.find? (fun p => p.2.any (fun kw => containsSub tl (chars kw))) with
  | some p => p.1
  | none => "Other"

/-- `parse_credibility` (scraper.py lines 128-133). -/
def parse_credibility (text : List Char) (has_record : Bool) : String :=
  if has_record then "verified"
  else if HYPE_WORDS.any (fun w => containsSub (lowerL text) w) then "suspicious"
  else "unverified"

/-- Risk-units extraction (scraper.py lines 214-216):
`abs(float(m.group(1)))` when `UNITS_PATTERN` matches, else `1.0`, then
clamped with `min (. , 10.0)`. -/
def extractRiskUnits (text : List Char) : ℚ :=
  match unitsSearch text with
  | some d => min |d.toRat| 10
  | none => min 1 10

/-!  The post parser (scraper.py lines 180-239). -/

/-- A raw Reddit post, with the four fields `parse_post` reads
(`post_data.get` of a missing field yields the empty string). -/
structure RedditPost where
  title : List Char
  selftext : List Char
  author : List Char
  permalink : List Char
deriving DecidableEq

/-- The structured pick dict built by `parse_post`, with its twelve
keys (scraper.py lines 226-239). -/
structure ParsedPick where
  author : List Char
  pick_text : List Char
  odds : Int
  risk_units : ℚ
  sport : String
  matchup : List Char
  wins : Nat
  losses : Nat
  total_units : ℚ
  credibility : String
  source_url : List Char
  raw_post_text : List Char

/-- The permalink-derived URL `f"https://reddit.com{permalink}"`, built
identically in `parse_post` (line 186) and `run_scraper` (line 325). -/
def urlOf (permalink : List Char) : List Char :=
  chars "https://reddit.com" ++ permalink

/-- `title + "\n" + body` (scraper.py line 187). -/
def fullTextOf (post : RedditPost) : List Char :=
  post.title ++ ['\n'] ++ post.selftext

/-- The body of `parse_post` after the odds gate has passed
(scraper.py lines 198-239).  `fetch_op_comments` is modelled as a total
function from `(permalink, author)` to the concatenated top-level OP
comment text (the Python function returns `""` on any error).  The
Python truthiness tests `if permalink` / `if op_comment_text` are
emptiness tests on strings, and `record if record else (0, 0)` is
`Option.getD` since every extracted tuple is truthy. -/
def buildPick (fetch_op_comments : List Char → List Char → List Char)
    (post : RedditPost) (odds : Int) : ParsedPick :=
  let title := post.title
  let body := post.selftext
  let full_text := fullTextOf post
  let record0 := extract_record full_text
  let op_comment_text :=
    if record0 = none ∧ post.permalink ≠ [] then
      fetch_op_comments post.permalink post.author
    else []
  let record :=
    if record0 = none ∧ op_comment_text ≠ [] then extract_record op_comment_text
    else record0
  let wl := record.getD (0, 0)
  let all_text := full_text ++ ['\n'] ++ op_comment_text
  { author := post.author
    pick_text := if title ≠ [] then title.take 200 else chars "Unknown Pick"
    odds := odds
    risk_units := extractRiskUnits all_text
    sport := detect_sport all_text
    matchup := []
    wins := wl.1
    losses := wl.2
    total_units := match totalUnitsSearch body with | some d => d.toRat | none => 0
    credibility := parse_credibility all_text record.isSome
    source_url := urlOf post.permalink
    raw_post_text := all_text.take 2000 }

/-- `parse_post` (scraper.py lines 180-239): `None` unless
`ODDS_PATTERN` matches `title + "\n" + body`; the `ValueError` guard on
`int(...)` is unreachable because the captured text is a sign and
digits. -/
def parse_post (fetch_op_comments : List Char → List Char → List Char)
    (post : RedditPost) : Option ParsedPick :=
  match oddsSearch (fullTextOf post) with
  | none => none
  | some odds => some (buildPick fetch_op_comments post odds)

/-!  The ingestion runner `run_scraper` (scraper.py lines 312-344) and
the DB helpers it calls.  The Supabase client is modelled by two
oracles: `upsert`, returning the capper id of a successful
`upsert_capper` and `none` on a write failure (lines 270-287), and
`insertOk`, telling whether the `insert_pick` write succeeded (lines
290-305; its failure is caught inside `insert_pick` and influences
nothing else).  An `InsertEvent` records one attempted pick insert. -/

/-- One attempted `insert_pick` call: the capper id passed and the
parsed pick the row is built from. -/
structure InsertEvent where
  capper_id : Nat
  parsed : ParsedPick

/-- The runner's in-memory state: the seen-URL set, the `picks_added`
counter, the attempted pick inserts, and the pick rows actually written
(`dbPicks`). -/
structure RunState where
  seenUrls : List (List Char)
  picksAdded : Nat
  inserts : List InsertEvent
  dbPicks : List InsertEvent

/-- The external world of one run: search results per
(subreddit, query), the comment fetcher, and the two DB oracles. -/
structure ScrapeEnv where
  fetchPosts : String → String → List RedditPost
  fetchComments : List Char → List Char → List Char
  upsert : List Char → ParsedPick → Option Nat
  insertOk : Nat → ParsedPick → Bool

/-- The platform's deleted-author sentinel. -/
def deleted : List Char := chars "[deleted]"

/-- `SUBREDDITS` (scraper.py lines 20-36). -/
def SUBREDDITS : List String :=
  ["sportsbook", "sportsbetting", "PickOfTheDay", "SportsPicksHub",
   "nba", "nfl", "nhl", "baseball", "soccer", "PrizePicks", "parlays"]

/-- `SEARCH_QUERIES` (scraper.py lines 38-45). -/
def SEARCH_QUERIES : List String :=
  ["POTD", "Pick of the Day", "daily pick", "free pick", "record", "units"]

/-- The per-post body of `run_scraper`'s inner loop (scraper.py lines
322-342): filter on author and the seen set, parse, mark seen, upsert
the capper, and insert the pick only when the upsert returned an id. -/
def processPost (env : ScrapeEnv) (st : RunState) (post : RedditPost) : RunState :=
  if post.author = [] ∨ post.author = deleted ∨ urlOf post.permalink ∈ st.seenUrls then st
  else
    match parse_post env.fetchComments post with
    | none => st
    | some parsed =>
      match env.upsert post.author parsed with
      | none => { st with seenUrls := urlOf post.permalink :: st.seenUrls }
      | some cid =>
        { st with
          seenUrls := urlOf post.permalink :: st.seenUrls
          inserts := st.inserts ++ [⟨cid, parsed⟩]
          dbPicks :=
            if env.insertOk cid parsed then st.dbPicks ++ [⟨cid, parsed⟩] else st.dbPicks
          picksAdded := st.picksAdded + 1 }

/-- One batch of search results. -/
def processPosts (env : ScrapeEnv) (st : RunState) (posts : List RedditPost) : RunState :=
  posts.foldl (processPost env) st

/-- The initial run state (scraper.py lines 316-317). -/
def initState : RunState := ⟨[], 0, [], []⟩

/-- `run_scraper` (scraper.py lines 312-344): iterate every
(subreddit, query) pair in order, processing each returned post. -/
def run_scraper (env : ScrapeEnv) : RunState :=
  SUBREDDITS.foldl
    (fun st sub =>
      SEARCH_QUERIES.foldl (fun st q => processPosts env st (env.fetchPosts sub q)) st)
    initState

/-!  `_get_with_retry` (scraper.py lines 136-147).  The HTTP layer is
modelled by a function from the attempt index to the response status
code; the trace records the returned status, the number of GET attempts
issued, and the sleeps performed (in time units), in order. -/

/-- The observable outcome of `_get_with_retry`. -/
structure RetryTrace where
  result : Nat
  attempts : Nat
  sleeps : List Nat
deriving DecidableEq

/-- The `for attempt in range(max_retries)` loop: on a 429, sleep
`delay`, double it and continue; otherwise return the response at once;
when the loop ends, return the last response fetched. -/
def getRetryGo (status : Nat → Nat) : Nat → Nat → Nat → List Nat → RetryTrace
  | 0, idx, _, acc => ⟨status (idx - 1), idx, acc⟩
  | fuel + 1, idx, delay, acc =>
    if status idx = 429 then getRetryGo status fuel (idx + 1) (delay * 2) (acc ++ [delay])
    else ⟨status idx, idx + 1, acc⟩

/-- `_get_with_retry` at its default `max_retries = 3` (the only value
used), starting with a 2-unit delay. -/
def get_with_retry (status : Nat → Nat) : RetryTrace :=
  getRetryGo status 3 0 2 []

/-!  Helper lemmas. -/

/-- A successful `parse_post` is the pick built from the first odds
match. -/
theorem parse_post_eq_some {f : List Char → List Char → List Char} {post : RedditPost}
    {pk : ParsedPick} (h : parse_post f post = some pk) :
    ∃ v, oddsSearch (fullTextOf post) = some v ∧ pk = buildPick f post v := by
  unfold parse_post at h
  cases ho : oddsSearch (fullTextOf post) with
  | none => rw [ho] at h; cases h
  | some v => rw [ho] at h; injection h with h; exact ⟨v, rfl, h.symm⟩

theorem buildPick_source_url (f : List Char → List Char → List Char) (post : RedditPost)
    (v : Int) : (buildPick f post v).source_url = urlOf post.permalink := rfl

theorem buildPick_author (f : List Char → List Char → List Char) (post : RedditPost)
    (v : Int) : (buildPick f post v).author = post.author := rfl

theorem buildPick_odds (f : List Char → List Char → List Char) (post : RedditPost)
    (v : Int) : (buildPick f post v).odds = v := rfl

/-- The sport categories of the keyword table. -/
def sportCategories : List String := SPORT_KEYWORDS.map Prod.fst

theorem detect_sport_mem (text : List Char) :
    detect_sport text ∈ sportCategories ++ ["Other"] := by
  simp only [detect_sport]
  cases h : SPORT_KEYWORDS.find? (fun p => p.2.any (fun kw => containsSub (lowerL text) (chars kw))) with
  | none => simp
  | some p =>
    have hm : p ∈ SPORT_KEYWORDS := List.mem_of_find?_eq_some h
    have h1 : p.1 ∈ sportCategories := List.mem_map_of_mem Prod.fst hm
    exact List.mem_append_left _ h1

/-- Fold preservation of an invariant. -/
theorem foldl_preserve {α β : Type} (P : α → Prop) (f : α → β → α)
    (hf : ∀ a b, P a → P (f a b)) :
    ∀ (l : List β) (a : α), P a → P (List.foldl f a l) := by
  intro l
  induction l with
  | nil => intro a ha; exact ha
  | cons b t ih => intro a ha; exact ih (f a b) (hf a b ha)

/-- The source URLs of the attempted pick inserts. -/
def insertUrls (st : RunState) : List (List Char) :=
  st.inserts.map (fun e => e.parsed.source_url)

/-- The invariant `run_scraper` maintains: every attempted insert's URL
is in the seen set, no URL is inserted twice, and every attempted
insert carries the capper id its author's upsert returned. -/
def RunInv (env : ScrapeEnv) (st : RunState) : Prop :=
  (∀ e ∈ st.inserts, e.parsed.source_url ∈ st.seenUrls) ∧
  (insertUrls st).Nodup ∧
  (∀ e ∈ st.inserts, env.upsert e.parsed.author e.parsed = some e.capper_id)

/-- `processPost` equation: the author/seen filter skips the post. -/
theorem processPost_skip (env : ScrapeEnv) (st : RunState) (post : RedditPost)
    (h : post.author = [] ∨ post.author = deleted ∨ urlOf post.permalink ∈ st.seenUrls) :
    processPost env st post = st := by
  unfold processPost
  rw [if_pos h]

/-- `processPost` equation: a post that does not parse leaves the state
unchanged. -/
theorem processPost_noparse (env : ScrapeEnv) (st : RunState) (post : RedditPost)
    (h : ¬(post.author = [] ∨ post.author = deleted ∨ urlOf post.permalink ∈ st.seenUrls))
    (hp : parse_post env.fetchComments post = none) :
    processPost env st post = st := by
  simp only [processPost, if_neg h, hp]

/-- `processPost` equation: a parsed post whose author upsert fails is
marked seen but no pick insert is attempted. -/
theorem processPost_upsertFail (env : ScrapeEnv) (st : RunState) (post : RedditPost)
    (parsed : ParsedPick)
    (h : ¬(post.author = [] ∨ post.author = deleted ∨ urlOf post.permalink ∈ st.seenUrls))
    (hp : parse_post env.fetchComments post = some parsed)
    (hu : env.upsert post.author parsed = none) :
    processPost env st post = { st with seenUrls := urlOf post.permalink :: st.seenUrls } := by
  simp only [processPost, if_neg h, hp, hu]

/-- `processPost` equation: a parsed post with a successful upsert is
marked seen and its pick insert is attempted with the returned id. -/
theorem processPost_insert (env : ScrapeEnv) (st : RunState) (post : RedditPost)
    (parsed : ParsedPick) (cid : Nat)
    (h : ¬(post.author = [] ∨ post.author = deleted ∨ urlOf post.permalink ∈ st.seenUrls))
    (hp : parse_post env.fetchComments post = some parsed)
    (hu : env.upsert post.author parsed = some cid) :
    processPost env st post =
      { st with
        seenUrls := urlOf post.permalink :: st.seenUrls
        inserts := st.inserts ++ [⟨cid, parsed⟩]
        dbPicks := if env.insertOk cid parsed then st.dbPicks ++ [⟨cid, parsed⟩] else st.dbPicks
        picksAdded := st.picksAdded + 1 } := by
  simp only [processPost, if_neg h, hp, hu]

theorem processPost_preserves (env : ScrapeEnv) (st : RunState) (post : RedditPost)
    (h : RunInv env st) : RunInv env (processPost env st post) := by
  by_cases hc : post.author = [] ∨ post.author = deleted ∨ urlOf post.permalink ∈ st.seenUrls
  · rw [processPost_skip env st post hc]; exact h
  · cases hp : parse_post env.fetchComments post with
    | none => rw [processPost_noparse env st post hc hp]; exact h
    | some parsed =>
      obtain ⟨v, _, hpk⟩ := parse_post_eq_some hp
      have hurl : parsed.source_url = urlOf post.permalink := by
        rw [hpk, buildPick_source_url]
      have hauth : parsed.author = post.author := by
        rw [hpk, buildPick_author]
      have hnotseen : urlOf post.permalink ∉ st.seenUrls := fun hmem =>
        hc (Or.inr (Or.inr hmem))
      cases hu : env.upsert post.author parsed with
      | none =>
        rw [processPost_upsertFail env st post parsed hc hp hu]
        refine ⟨?_, h.2.1, h.2.2⟩
        intro e he
        exact List.mem_cons_of_mem _ (h.1 e he)
      | some cid =>
        rw [processPost_insert env st post parsed cid hc hp hu]
        refine ⟨?_, ?_, ?_⟩
        · intro e he
          rcases List.mem_append.mp he with he | he
          · exact List.mem_cons_of_mem _ (h.1 e he)
          · rcases List.mem_singleton.mp he with rfl
            exact hurl ▸ List.mem_cons_self _ _
        · have heq : insertUrls { st with
              seenUrls := urlOf post.permalink :: st.seenUrls
              inserts := st.inserts ++ [⟨cid, parsed⟩]
              dbPicks := if env.insertOk cid parsed then st.dbPicks ++ [⟨cid, parsed⟩]
                         else st.dbPicks
              picksAdded := st.picksAdded + 1 } = insertUrls st ++ [parsed.source_url] := by
            simp [insertUrls]
          rw [heq]
          refine List.nodup_append.mpr ⟨h.2.1, List.nodup_singleton _, ?_⟩
          intro u hu1 hu2
          rcases List.mem_singleton.mp hu2 with rfl
          obtain ⟨e, he, hes⟩ := List.mem_map.mp hu1
          have hse := h.1 e he
          rw [hes, hurl] at hse
          exact hnotseen hse
        · intro e he
          rcases List.mem_append.mp he with he | he
          · exact h.2.2 e he
          · rcases List.mem_singleton.mp he with rfl
            show env.upsert parsed.author parsed = some cid
            rw [hauth]
            exact hu

theorem run_scraper_inv (env : ScrapeEnv) : RunInv env (run_scraper env) := by
  unfold run_scraper
  refine foldl_preserve _ _ ?_ SUBREDDITS initState ?_
  · intro a b ha
    refine foldl_preserve _ _ ?_ SEARCH_QUERIES a ha
    intro a' q ha'
    unfold processPosts
    exact foldl_preserve _ _ (fun s p hs => processPost_preserves env s p hs)
      (env.fetchPosts b q) a' ha'
  · exact ⟨by simp [initState], by simp [initState, insertUrls], by simp [initState]⟩

/-- A fixed trivial environment, used by the concrete witnesses. -/
def envTrivial : ScrapeEnv :=
  ⟨fun _ _ => [], fun _ _ => [], fun _ _ => none, fun _ _ => true⟩

/-!  The claims. -/

/-- Claim C1: `parse_post` returns rejection (`none`) if and only if
`ODDS_PATTERN` (a `+` or `-` sign immediately followed by 2-4 digits)
has no match in `title + "\n" + body`; when a match exists, the built
pick's `odds` field is the signed integer value of the first match. -/
theorem parse_post_rejects_iff_no_odds (f : List Char → List Char → List Char)
    (post : RedditPost) :
    (parse_post f post = none ↔ oddsSearch (fullTextOf post) = none) ∧
    (∀ pk, parse_post f post = some pk →
       ∃ v, oddsSearch (fullTextOf post) = some v ∧ pk.odds = v) := by
  constructor
  · unfold parse_post
    cases h : oddsSearch (fullTextOf post) <;> simp
  · intro pk hpk
    obtain ⟨v, hv, hb⟩ := parse_post_eq_some hpk
    exact ⟨v, hv, by rw [hb, buildPick_odds]⟩

/-- Witness for C1: a concrete post with odds `-110` in the title. -/
theorem parse_post_rejects_iff_no_odds_witness :
    ∃ v, oddsSearch (fullTextOf ⟨chars "Lakers -110", [], chars "alice", []⟩) = some v ∧
      (buildPick (fun _ _ => []) ⟨chars "Lakers -110", [], chars "alice", []⟩ (-110)).odds = v :=
  (parse_post_rejects_iff_no_odds (fun _ _ => []) ⟨chars "Lakers -110", [], chars "alice", []⟩).2
    (buildPick (fun _ _ => []) ⟨chars "Lakers -110", [], chars "alice", []⟩ (-110)) (by rfl)

/-- Claim C2 concerns a post with odds but no record whose author's
top-level reply is `"currently 14-6"`.  The spec (and the code's own
comment on the verb-led alternative of `RECORD_PATTERN`) say this must
yield `wins=14, losses=6, credibility="verified"`, but the regex
requires a record noun (`record`/`rec`/`season`/...) after the optional
verb and its last alternative only accepts `currently at`, never bare
`currently`, so the reply yields no record: the pick is built with
`wins=0, losses=0, credibility="unverified"`.  The third conjunct shows
the nearby form `"currently at 14-6"` is recognized, locating the
slip. -/
theorem reply_record_currently_divergence :
    extract_record (chars "currently 14-6") = none ∧
    (parse_post (fun _ _ => chars "currently 14-6")
        ⟨chars "Pick -110", [], chars "alice", chars "/r/sportsbook/1"⟩).map
      (fun pk => (pk.wins, pk.losses, pk.credibility)) = some (0, 0, "unverified") ∧
    extract_record (chars "currently at 14-6") = some (14, 6) :=
  ⟨by decide, by rfl, by decide⟩

/-- Claim C3: the credibility classifier returns `"verified"` whenever
a record was found, regardless of hype words; otherwise `"suspicious"`
exactly when some phrase of the fixed hype list occurs in the
lower-cased text; otherwise `"unverified"`. -/
theorem parse_credibility_decision_table (text : List Char) (has_record : Bool) :
    (has_record = true → parse_credibility text has_record = "verified") ∧
    (has_record = false →
      ((∃ w ∈ HYPE_WORDS, containsSub (lowerL text) w = true) →
         parse_credibility text has_record = "suspicious") ∧
      ((∀ w ∈ HYPE_WORDS, containsSub (lowerL text) w = false) →
         parse_credibility text has_record = "unverified")) := by
  constructor
  · intro h; subst h; rfl
  · intro h; subst h
    unfold parse_credibility
    constructor
    · intro hw
      obtain ⟨w, hmem, hcon⟩ := hw
      rw [if_neg (by simp), if_pos (List.any_eq_true.mpr ⟨w, hmem, hcon⟩)]
    · intro hall
      rw [if_neg (by simp), if_neg]
      intro hany
      obtain ⟨w, hmem, hcon⟩ := List.any_eq_true.mp hany
      rw [hall w hmem] at hcon
      cases hcon

/-- Witness for C3: `"Guaranteed win"` with no record is suspicious. -/
theorem parse_credibility_decision_table_witness :
    parse_credibility (chars "Guaranteed win") false = "suspicious" :=
  ((parse_credibility_decision_table (chars "Guaranteed win") false).2 rfl).1
    ⟨chars "guaranteed", by decide, by decide⟩

/-- Counterexample to claim C4 as stated: the text `"(1-1) (12-5)"`
contains `"(12-5)"`, but the extractor's first match wins, so it yields
`(1, 1)`, not `(12, 5)`. -/
theorem extract_record_first_match_counterexample :
    containsSub (chars "(1-1) (12-5)") (chars "(12-5)") = true ∧
    extract_record (chars "(1-1) (12-5)") = some (1, 1) ∧
    extract_record (chars "(1-1) (12-5)") ≠ some (12, 5) := by
  decide

/-- Claim C4 as amended: on the texts `"(12-5)"`, `"[3-0]"` and
`"went 8-1"` themselves (and on any text where that occurrence is the
leftmost record match) the record extractor yields `(12,5)`, `(3,0)`
and `(8,1)`; an earlier record match elsewhere in the text takes
precedence. -/
theorem extract_record_surface_forms :
    extract_record (chars "(12-5)") = some (12, 5) ∧
    extract_record (chars "[3-0]") = some (3, 0) ∧
    extract_record (chars "went 8-1") = some (8, 1) := by
  decide

/-- Counterexample to claim C5 as stated: the extracted risk units are
not always strictly positive — on `"0u"` the first number is `0`, its
absolute value clamped is `0.0`. -/
theorem risk_units_zero_counterexample :
    extractRiskUnits (chars "0u") = 0 ∧ ¬ (0 < extractRiskUnits (chars "0u")) := by
  have h : extractRiskUnits (chars "0u") = 0 := by
    unfold extractRiskUnits
    rw [show unitsSearch (chars "0u") = some ⟨1, 0, 0, 0⟩ from by decide]
    norm_num [DecNum.toRat, min_def]
  exact ⟨h, by rw [h]; exact lt_irrefl 0⟩

/-- Claim C5 as amended: the extracted risk units are non-negative and
at most `10.0`: the absolute magnitude of the first `UNITS_PATTERN`
number clamped to `10.0`, defaulting to `1.0` when no number is
present; `"15u"` yields `10.0` and `"-110, 2.5u"` yields `2.5`. -/
theorem risk_units_clamped (text : List Char) :
    (0 ≤ extractRiskUnits text ∧ extractRiskUnits text ≤ 10) ∧
    (unitsSearch text = none → extractRiskUnits text = 1) ∧
    (∀ d, unitsSearch text = some d → extractRiskUnits text = min |d.toRat| 10) ∧
    extractRiskUnits (chars "15u") = 10 ∧
    extractRiskUnits (chars "-110, 2.5u") = 5 / 2 := by
  refine ⟨?_, ?_, ?_, ?_, ?_⟩
  · unfold extractRiskUnits
    cases h : unitsSearch text with
    | none => constructor <;> norm_num [min_def]
    | some d => exact ⟨le_min (abs_nonneg _) (by norm_num), min_le_right _ _⟩
  · intro h
    unfold extractRiskUnits
    rw [h]
    norm_num [min_def]
  · intro d h
    unfold extractRiskUnits
    rw [h]
  · unfold extractRiskUnits
    rw [show unitsSearch (chars "15u") = some ⟨1, 15, 0, 0⟩ from by decide]
    norm_num [DecNum.toRat, min_def, abs_of_nonneg]
  · unfold extractRiskUnits
    rw [show unitsSearch (chars "-110, 2.5u") = some ⟨1, 2, 5, 1⟩ from by decide]
    norm_num [DecNum.toRat, min_def, abs_of_nonneg]

/-- Witness for C5: a text with no units number defaults to `1.0`. -/
theorem risk_units_clamped_witness : extractRiskUnits (chars "no risk stated") = 1 :=
  (risk_units_clamped (chars "no risk stated")).2.1 (by decide)

/-- Claim C6: a post whose author is empty/missing or the
`"[deleted]"` sentinel is rejected immediately by the runner's filter,
whatever its text: the state (seen set, insert attempts, written rows,
counter) is unchanged, so no pick is built and no pick row is
inserted. -/
theorem deleted_author_rejected (env : ScrapeEnv) (st : RunState) (post : RedditPost)
    (h : post.author = [] ∨ post.author = deleted) :
    processPost env st post = st := by
  rcases h with h | h
  · exact processPost_skip env st post (Or.inl h)
  · exact processPost_skip env st post (Or.inr (Or.inl h))

/-- Witness for C6: a `[deleted]`-author post full of odds and hype is
a no-op. -/
theorem deleted_author_rejected_witness :
    processPost envTrivial initState
      ⟨chars "Lock of the day -110", chars "guaranteed 3u", deleted, chars "/r/x/9"⟩ =
      initState :=
  deleted_author_rejected envTrivial initState
    ⟨chars "Lock of the day -110", chars "guaranteed 3u", deleted, chars "/r/x/9"⟩
    (Or.inr rfl)

/-- Claim C7: within one run, at most one pick insert is attempted per
permalink-derived URL (their list is duplicate-free), across all
(subreddit, query) pairs; and once a URL is in the seen set the post is
not processed again. -/
theorem run_dedup_by_permalink (env : ScrapeEnv) :
    (insertUrls (run_scraper env)).Nodup ∧
    (∀ st post, urlOf post.permalink ∈ st.seenUrls → processPost env st post = st) := by
  constructor
  · exact (run_scraper_inv env).2.1
  · intro st post h
    exact processPost_skip env st post (Or.inr (Or.inr h))

/-- Witness for C7: a post whose URL is already seen is skipped. -/
theorem run_dedup_by_permalink_witness :
    processPost envTrivial ⟨[urlOf (chars "/r/x/1")], 0, [], []⟩
      ⟨chars "Pick -110", [], chars "alice", chars "/r/x/1"⟩ =
      ⟨[urlOf (chars "/r/x/1")], 0, [], []⟩ :=
  (run_dedup_by_permalink envTrivial).2 ⟨[urlOf (chars "/r/x/1")], 0, [], []⟩
    ⟨chars "Pick -110", [], chars "alice", chars "/r/x/1"⟩ (by decide)

/-- Claim C8: `_get_with_retry` issues at most 3 GET attempts; every
attempt before the last saw a 429; the waits before retries start at 2
time units and double (`[2]`, then `[2,4]`; after a third 429 a final
wait of 8 is performed and the loop ends); after exhausting retries the
last response is returned even if it is a 429, and a non-429 response
is returned immediately with no wait. -/
theorem get_with_retry_backoff (status : Nat → Nat) :
    (status 0 ≠ 429 → get_with_retry status = ⟨status 0, 1, []⟩) ∧
    (status 0 = 429 → status 1 ≠ 429 → get_with_retry status = ⟨status 1, 2, [2]⟩) ∧
    (status 0 = 429 → status 1 = 429 → status 2 ≠ 429 →
       get_with_retry status = ⟨status 2, 3, [2, 4]⟩) ∧
    (status 0 = 429 → status 1 = 429 → status 2 = 429 →
       get_with_retry status = ⟨status 2, 3, [2, 4, 8]⟩) ∧
    (get_with_retry status).attempts ≤ 3 ∧
    (get_with_retry status).result = status ((get_with_retry status).attempts - 1) := by
  by_cases h0 : status 0 = 429 <;> by_cases h1 : status 1 = 429 <;>
    by_cases h2 : status 2 = 429 <;>
      simp [get_with_retry, getRetryGo, h0, h1, h2]

/-- Witness for C8: a non-429 response is returned at once. -/
theorem get_with_retry_backoff_witness :
    get_with_retry (fun _ => 200) = ⟨200, 1, []⟩ :=
  (get_with_retry_backoff (fun _ => 200)).1 (by decide)

/-- Claim C9: when a built pick's author upsert fails, the dependent
pick insert is not attempted and the run continues (the post is marked
seen, nothing else changes); every attempted insert in a whole run
carries the capper id returned by that author's upsert, so no pick row
is ever written without one; and a pick-insert failure (the `insertOk`
oracle) cannot influence the seen set, the insert attempts or the
counter, only which rows ended up in the store. -/
theorem upsert_failure_skips_insert (env : ScrapeEnv) :
    (∀ st post parsed,
        ¬(post.author = [] ∨ post.author = deleted ∨ urlOf post.permalink ∈ st.seenUrls) →
        parse_post env.fetchComments post = some parsed →
        env.upsert post.author parsed = none →
        (processPost env st post).inserts = st.inserts ∧
        (processPost env st post).dbPicks = st.dbPicks ∧
        (processPost env st post).picksAdded = st.picksAdded ∧
        (processPost env st post).seenUrls = urlOf post.permalink :: st.seenUrls) ∧
    (∀ e ∈ (run_scraper env).inserts, env.upsert e.parsed.author e.parsed = some e.capper_id) ∧
    (∀ env' : ScrapeEnv, env'.fetchPosts = env.fetchPosts →
        env'.fetchComments = env.fetchComments → env'.upsert = env.upsert →
        ∀ st post,
          (processPost env' st post).seenUrls = (processPost env st post).seenUrls ∧
          (processPost env' st post).inserts = (processPost env st post).inserts ∧
          (processPost env' st post).picksAdded = (processPost env st post).picksAdded) := by
  refine ⟨?_, (run_scraper_inv env).2.2, ?_⟩
  · intro st post parsed hc hp hu
    rw [processPost_upsertFail env st post parsed hc hp hu]
    exact ⟨rfl, rfl, rfl, rfl⟩
  · intro env' hfp hfc hup st post
    by_cases hc : post.author = [] ∨ post.author = deleted ∨ urlOf post.permalink ∈ st.seenUrls
    · rw [processPost_skip env st post hc, processPost_skip env' st post hc]
      exact ⟨rfl, rfl, rfl⟩
    · cases hp : parse_post env.fetchComments post with
      | none =>
        rw [processPost_noparse env st post hc hp,
            processPost_noparse env' st post hc (by rw [hfc]; exact hp)]
        exact ⟨rfl, rfl, rfl⟩
      | some parsed =>
        cases hu : env.upsert post.author parsed with
        | none =>
          rw [processPost_upsertFail env st post parsed hc hp hu,
              processPost_upsertFail env' st post parsed hc (by rw [hfc]; exact hp)
                (by rw [hup]; exact hu)]
          exact ⟨rfl, rfl, rfl⟩
        | some cid =>
          rw [processPost_insert env st post parsed cid hc hp hu,
              processPost_insert env' st post parsed cid hc (by rw [hfc]; exact hp)
                (by rw [hup]; exact hu)]
          exact ⟨rfl, rfl, rfl⟩

/-- Witness for C9: with an always-failing upsert, a parsed post
attempts no insert and only marks its URL seen. -/
theorem upsert_failure_skips_insert_witness :
    (processPost envTrivial initState ⟨chars "Pick -110", [], chars "bob", chars "/p"⟩).inserts =
        initState.inserts ∧
      (processPost envTrivial initState ⟨chars "Pick -110", [], chars "bob", chars "/p"⟩).dbPicks =
        initState.dbPicks ∧
      (processPost envTrivial initState
            ⟨chars "Pick -110", [], chars "bob", chars "/p"⟩).picksAdded =
        initState.picksAdded ∧
      (processPost envTrivial initState ⟨chars "Pick -110", [], chars "bob", chars "/p"⟩).seenUrls =
        urlOf (chars "/p") :: initState.seenUrls :=
  (upsert_failure_skips_insert envTrivial).1 initState
    ⟨chars "Pick -110", [], chars "bob", chars "/p"⟩
    (buildPick envTrivial.fetchComments ⟨chars "Pick -110", [], chars "bob", chars "/p"⟩ (-110))
    (by decide) (by rfl) rfl

/-- Claim C10: `parse_post` is total by construction over posts with
string fields and a total comment fetcher, and returns either `none` or
a pick whose twelve fields are all populated, with `wins`/`losses`
non-negative, `sport` one of the keyword table's categories or
`"Other"`, and `raw_post_text` at most 2000 characters. -/
theorem parse_post_total_well_formed (f : List Char → List Char → List Char)
    (post : RedditPost) :
    parse_post f post = none ∨
    ∃ pk, parse_post f post = some pk ∧
      pk.sport ∈ sportCategories ++ ["Other"] ∧
      pk.raw_post_text.length ≤ 2000 ∧
      (0 : Int) ≤ pk.wins ∧ (0 : Int) ≤ pk.losses ∧
      pk.author = post.author ∧
      pk.source_url = urlOf post.permalink ∧
      pk.matchup = [] := by
  unfold parse_post
  cases h : oddsSearch (fullTextOf post) with
  | none => exact Or.inl rfl
  | some v =>
    refine Or.inr ⟨buildPick f post v, rfl, ?_, ?_, ?_, ?_, rfl, rfl, rfl⟩
    · exact detect_sport_mem _
    · show ((fullTextOf post ++ ['\n'] ++ _).take 2000).length ≤ 2000
      rw [List.length_take]
      exact min_le_left _ _
    · exact Int.natCast_nonneg _
    · exact Int.natCast_nonneg _

end PickScout
